import Mathlib

/-!
Shallow embedding of `src/static/code.js` (AnyLeaf water-mon-app, browser
client): the numeric formatter `format`, the reading updater
`update_readings`, and the cookie reader `getCookie`.

JavaScript numbers are modelled as exact rationals; `Math.round` is
`⌊x + 1/2⌋` (round half toward positive infinity), which is the JS
semantics of rounding ties upward.
-/

namespace WaterMon

/-- JS builtin Math.round: nearest integer, ties toward positive infinity,
i.e. the floor of `q + 1/2`. -/
def jsRound (q : ℚ) : ℤ := ⌊q + 1/2⌋

/-- Fuelled worker for `countFactor`; the fuel only bounds the recursion
depth and `countFactor` supplies enough of it (`n` itself, since each step
at least halves `n`). -/
def countFactorAux (k : ℕ) : ℕ → ℕ → ℕ
  | _, 0 => 0
  | n, fuel + 1 =>
    if 2 ≤ k ∧ k ∣ n ∧ n ≠ 0 then countFactorAux k (n / k) fuel + 1 else 0

/-- Multiplicity of the factor `k` in `n`: how many times `k` divides `n`
(0 when `k < 2` or `n = 0`). -/
def countFactor (k n : ℕ) : ℕ := countFactorAux k n n

/-- Fractional digit count of the terminating decimal representation of `q`:
the length of the digit block after the point in JS `result.toString()`
(0 when there is no point). Meaningful whenever `q.den` divides a power of
10, which holds for every value `format` inspects (its `result` is an
integer divided by `10^precision`). -/
def decFracLen (q : ℚ) : ℕ := max (countFactor 2 q.den) (countFactor 5 q.den)

/-- Left-pad a digit string with zeros up to length `len`. -/
def zeroPad (s : String) (len : ℕ) : String :=
  String.mk (List.replicate (len - s.length) '0') ++ s

/-- JS builtin Number.prototype.toFixed: render `q` with exactly `len`
fractional digits — the integer `n` with `n / 10^len` nearest to `q` (ties
to the larger `n`), written in fixed-point notation. -/
def toFixed (q : ℚ) (len : ℕ) : String :=
  let n : ℤ := ⌊q * 10 ^ len + 1/2⌋
  let m : ℕ := n.natAbs
  let sign : String := if n < 0 then "-" else ""
  if len = 0 then sign ++ Nat.repr m
  else sign ++ Nat.repr (m / 10 ^ len) ++ "." ++ zeroPad (Nat.repr (m % 10 ^ len)) len

/-- Line 3 of code.js: `Math.round(val * 10**precision) / 10**precision`. -/
def roundedResult (val : ℚ) (precision : ℕ) : ℚ :=
  ((jsRound (val * 10 ^ precision) : ℤ) : ℚ) / 10 ^ precision

/-- Function `format(val, precision)` of code.js (lines 1-9): scale by
`10^precision`, round, descale; then render with `toFixed` at the requested
precision, widened to the fractional digit count of `result.toString()`
when that count exceeds the requested precision (`dec && dec.length >
precision ? dec.length : precision` — `dec` is undefined, hence falsy,
exactly when `decFracLen result = 0`). -/
def format (val : ℚ) (precision : ℕ) : String :=
  let result := roundedResult val precision
  let decLen := decFracLen result
  let len := if 0 < decLen ∧ precision < decLen then decLen else precision
  toFixed result len

/-- Value of one hexadecimal digit, as used in percent-escapes. -/
def hexDigitVal (c : Char) : Option ℕ :=
  if '0' ≤ c ∧ c ≤ '9' then some (c.toNat - 48)
  else if 'A' ≤ c ∧ c ≤ 'F' then some (c.toNat - 55)
  else if 'a' ≤ c ∧ c ≤ 'f' then some (c.toNat - 87)
  else none

/-- Percent-decoding at the code-point level: each valid escape of the form
percent-sign followed by two hex digits becomes the character with that
code. Malformed escapes (which make the JS builtin throw) are left
verbatim; the claims never exercise them. -/
def percentDecodeAux : ℕ → List Char → List Char
  | 0, l => l
  | _ + 1, [] => []
  | fuel + 1, c :: rest =>
    if c = '%' then
      match rest with
      | h1 :: h2 :: rest2 =>
        match hexDigitVal h1, hexDigitVal h2 with
        | some a, some b => Char.ofNat (16 * a + b) :: percentDecodeAux fuel rest2
        | _, _ => c :: percentDecodeAux fuel rest
      | _ => c :: percentDecodeAux fuel rest
    else c :: percentDecodeAux fuel rest

/-- Percent-decoding of a character list; the fuel argument of the worker
only bounds the recursion depth (each step consumes at least one character,
so the list length is enough fuel). -/
def percentDecode (l : List Char) : List Char := percentDecodeAux l.length l

/-- JS builtin decodeURIComponent, modelled as percent-decoding of the
character sequence (multi-byte UTF-8 escape sequences decode to one
character per byte here; the claims only use unescaped ASCII values). -/
def decodeURIComponent (s : String) : String := String.mk (percentDecode s.data)

/-- Loop of getCookie (code.js lines 56-63): walk the semicolon-separated
pieces; on the first piece whose trimmed form begins with `name_ ++ "="`,
return its decoded remainder (the `break`); otherwise fall through. -/
def cookieLoop (name_ : String) : List String → Option String
  | [] => none
  | c :: cookies =>
    let cookie := c.trim
    if cookie.take (name_.length + 1) = name_ ++ "=" then
      some (decodeURIComponent (cookie.drop (name_.length + 1)))
    else cookieLoop name_ cookies

/-- Function getCookie() of code.js (lines 51-66): `name_` is fixed to
"csrftoken"; when `document.cookie` is truthy and nonempty, split it on
";" and run the loop; otherwise the initial `null` survives. The ambient
`document.cookie` string is the explicit argument. -/
def getCookie (documentCookie : String) : Option String :=
  if documentCookie ≠ "" then cookieLoop "csrftoken" (documentCookie.splitOn ";")
  else none

/-- Parsed JSON body of the readings response. Each top-level field is
OUTER-optional (`none` when the key is missing from the object, so that
member access on it throws) and INNER-optional (`some none` when the field
record lacks the success key, `some (some v)` when it carries `Ok: v`). -/
structure Response where
  pH : Option (Option ℚ)
  T : Option (Option ℚ)
  ec : Option (Option ℚ)
  ORP : Option (Option ℚ)
deriving DecidableEq

/-- Ambient mutable state visible to the script: the text content of the
four display elements, the sloppily-created global variable `disp`
(line 43 writes it without a declaration), the cookie store, and a stand-in
for every other variable of the page, which the code never touches. -/
structure PageState where
  phReading : String
  tempReading : String
  ecReading : String
  orpReading : String
  disp : Option ℚ
  documentCookie : String
  otherState : ℕ
deriving DecidableEq

/-- Argument object of the fetch call (code.js lines 14-24): method, fixed
url, the four request headers, and the credentials mode. -/
structure FetchRequest where
  method : String
  url : String
  xCSRFToken : Option String
  contentType : String
  accept : String
  xRequestedWith : String
  credentials : String
deriving DecidableEq

/-- Response handler of update_readings (code.js lines 26-46), as a state
transformer. Fields are inspected in source order pH, T, ec, ORP. A
missing top-level field makes `r.<field>.hasOwnProperty` throw a
TypeError (modelled as `Except.error` carrying the state at that moment,
since earlier display writes have already happened); a field without the
`Ok` key is skipped; a field with `Ok: v` writes the formatted value to
its display element — and, for ORP, also assigns the global `disp`. -/
def handleResponse (r : Response) (s0 : PageState) : Except PageState PageState :=
  match r.pH with
  | none => .error s0
  | some pHField =>
    let s1 := match pHField with
      | some v => { s0 with phReading := format v 1 }
      | none => s0
    match r.T with
    | none => .error s1
    | some tField =>
      let s2 := match tField with
        | some v => { s1 with tempReading := format v 1 }
        | none => s1
      match r.ec with
      | none => .error s2
      | some ecField =>
        let s3 := match ecField with
          | some v => { s2 with ecReading := format (v * 1000000) 0 }
          | none => s2
        match r.ORP with
        | none => .error s3
        | some orpField =>
          let s4 := match orpField with
            | some v => { s3 with orpReading := format v 0, disp := some v }
            | none => s3
          .ok s4

/-- State after one run of the response handler, whether it returned
normally or threw (the unhandled rejection leaves the writes already
performed in place). -/
def runState (r : Response) (s : PageState) : PageState :=
  match handleResponse r s with
  | .ok s1 => s1
  | .error s1 => s1

/-- Function update_readings() of code.js (lines 11-49): builds the single
fetch request — reading the csrftoken cookie afresh from the current
cookie store — and installs the response handler. The pair returned is
exactly what one invocation issues: one request, one handler. -/
def update_readings (s : PageState) :
    FetchRequest × (Response → PageState → Except PageState PageState) :=
  ({ method := "GET"
     url := "/api/readings"
     xCSRFToken := getCookie s.documentCookie
     contentType := "application/json; charset=UTF-8"
     accept := "application/json"
     xRequestedWith := "XMLHttpRequest"
     credentials := "include" }, handleResponse)

/-- Spec-side restatement of the cookie reader (used only to compare with
`getCookie`, which is translated from the code): among the
semicolon-separated pieces of the cookie string, each trimmed, find the
first whose prefix up to and including the equals sign is "csrftoken=" —
i.e. whose name is exactly csrftoken — and return its percent-decoded
remainder; otherwise null. -/
def getCookieSpec (documentCookie : String) : Option String :=
  (((documentCookie.splitOn ";").map (fun c => c.trim)).find?
      (fun c => c.take "csrftoken=".length == "csrftoken=")).map
    (fun c => decodeURIComponent (c.drop "csrftoken=".length))

/-- Sample page state used as the concrete prior state of the claims'
test vectors: each display element holds recognizable stale text, `disp`
is not yet created, the cookie store is empty. -/
def anyState : PageState :=
  { phReading := "oldPh", tempReading := "oldT", ecReading := "oldEc",
    orpReading := "oldOrp", disp := none, documentCookie := "", otherState := 37 }

lemma countFactorAux_pow_dvd (k : ℕ) : ∀ fuel n : ℕ, k ^ countFactorAux k n fuel ∣ n := by
  intro fuel
  induction fuel with
  | zero => intro n; simp [countFactorAux]
  | succ fuel ih =>
    intro n
    rw [countFactorAux]
    by_cases h : 2 ≤ k ∧ k ∣ n ∧ n ≠ 0
    · rw [if_pos h, pow_succ]
      have h2 := mul_dvd_mul_right (ih (n / k)) k
      rwa [Nat.div_mul_cancel h.2.1] at h2
    · rw [if_neg h, pow_zero]
      exact one_dvd n

lemma pow_countFactor_dvd (k n : ℕ) : k ^ countFactor k n ∣ n :=
  countFactorAux_pow_dvd k n n

lemma le_of_pow_dvd_ten_pow {k c p : ℕ} (hk : 1 < k) (m : ℕ) (hcop : Nat.Coprime k m)
    (hsplit : (10 : ℕ) ^ p = k ^ p * m ^ p) (h : k ^ c ∣ 10 ^ p) : c ≤ p := by
  rw [hsplit] at h
  have hd : k ^ c ∣ k ^ p := (hcop.pow c p).dvd_of_dvd_mul_right h
  exact (Nat.pow_dvd_pow_iff_le_right hk).1 hd

lemma den_roundedResult_dvd (val : ℚ) (p : ℕ) : (roundedResult val p).den ∣ 10 ^ p := by
  have h := Rat.den_dvd (jsRound (val * 10 ^ p)) (10 ^ p)
  rw [Rat.divInt_eq_div] at h
  have e : (((10 : ℤ) ^ p : ℤ) : ℚ) = (10 : ℚ) ^ p := by push_cast; ring
  rw [e] at h
  rw [roundedResult]
  exact_mod_cast h

lemma decFracLen_roundedResult_le (val : ℚ) (p : ℕ) :
    decFracLen (roundedResult val p) ≤ p := by
  have hden := den_roundedResult_dvd val p
  have h2 : countFactor 2 (roundedResult val p).den ≤ p :=
    le_of_pow_dvd_ten_pow (by norm_num) 5 (by norm_num)
      (by rw [show (10 : ℕ) = 2 * 5 from rfl, Nat.mul_pow])
      (dvd_trans (pow_countFactor_dvd 2 _) hden)
  have h5 : countFactor 5 (roundedResult val p).den ≤ p :=
    le_of_pow_dvd_ten_pow (by norm_num) 2 (by norm_num)
      (by rw [show (10 : ℕ) = 5 * 2 from rfl, Nat.mul_pow])
      (dvd_trans (pow_countFactor_dvd 5 _) hden)
  exact max_le h2 h5

lemma cookieLoop_eq_find (l : List String) :
    cookieLoop "csrftoken" l =
      ((l.map (fun c => c.trim)).find?
          (fun c => c.take "csrftoken=".length == "csrftoken=")).map
        (fun c => decodeURIComponent (c.drop "csrftoken=".length)) := by
  induction l with
  | nil => rfl
  | cons c l ih =>
    rw [cookieLoop, List.map_cons, List.find?_cons]
    have hlen : "csrftoken=".length = "csrftoken".length + 1 := by decide
    have happ : "csrftoken" ++ "=" = "csrftoken=" := by decide
    by_cases h : c.trim.take ("csrftoken".length + 1) = "csrftoken" ++ "="
    · have hb : (c.trim.take "csrftoken=".length == "csrftoken=") = true := by
        rw [hlen, beq_iff_eq, happ.symm] at *
        exact h
      rw [if_pos h, hb, hlen]
      rfl
    · have hb : (c.trim.take "csrftoken=".length == "csrftoken=") = false := by
        rw [hlen]
        rw [beq_eq_false_iff_ne]
        rw [← happ]
        exact h
      rw [if_neg h, hb]
      exact ih

/-- C2: for every value and non-negative precision, `format val p` equals
the fixed-point rendering of `r = round(val * 10^p) / 10^p` with
`max p d` fractional digits, `d` being the fractional digit count of the
decimal representation of `r`. (Indeed `d ≤ p` always holds — `r`'s
denominator divides `10^p` — so the output carries exactly `p` fractional
digits and the widening branch never fires.) -/
theorem format_eq_toFixed_max_precision (val : ℚ) (p : ℕ) :
    format val p =
      toFixed (roundedResult val p) (max p (decFracLen (roundedResult val p))) := by
  have h := decFracLen_roundedResult_le val p
  simp only [format]
  have hc : ¬(0 < decFracLen (roundedResult val p) ∧
      p < decFracLen (roundedResult val p)) := by omega
  rw [if_neg hc, Nat.max_eq_left h]

/-- C7: the formatter meets the spec's concrete test vectors —
`format(12.345, 1) = "12.3"`, `format(5, 0) = "5"` with no decimal point,
and `format(1.2345, 2) = "1.23"` (not `"1.2345"`). -/
theorem format_test_vectors :
    format (12345 / 1000 : ℚ) 1 = "12.3" ∧
    format 5 0 = "5" ∧
    format (12345 / 10000 : ℚ) 2 = "1.23" := by
  refine ⟨?_, ?_, ?_⟩ <;> with_unfolding_all decide

/-- C10: at exact ties the rounding step rounds toward positive infinity
(not to even, not away from zero): `format(2.5, 0) = "3"`,
`format(-2.5, 0) = "-2"`, `format(0.25, 1) = "0.3"`,
`format(-0.25, 1) = "-0.2"`. -/
theorem format_ties_toward_positive_infinity :
    format (5 / 2 : ℚ) 0 = "3" ∧
    format (-(5 / 2) : ℚ) 0 = "-2" ∧
    format (1 / 4 : ℚ) 1 = "0.3" ∧
    format (-(1 / 4) : ℚ) 1 = "-0.2" := by
  refine ⟨?_, ?_, ?_, ?_⟩ <;> with_unfolding_all decide

/-- C4: for every ambient cookie string, `getCookie` returns the
percent-decoded value of the first semicolon-separated, whitespace-trimmed
pair whose name is exactly csrftoken (prefix up to and including the
equals sign is "csrftoken=", so a name merely extending csrftoken does
not match), and null otherwise; in particular null on the empty string,
`"abc123"` on `"csrftoken=abc123; other=xyz"`, null when only a
proper-prefix name is present, and the first of several matches wins. -/
theorem getCookie_first_exact_match :
    (∀ s : String, getCookie s = getCookieSpec s) ∧
    getCookie "" = none ∧
    getCookie "csrftoken=abc123; other=xyz" = some "abc123" ∧
    getCookie "csrftokenXtra=5; other=1" = none ∧
    getCookie "other=1; csrftoken=%41bc; csrftoken=later" = some "Abc" := by
  refine ⟨?_, by with_unfolding_all decide, by with_unfolding_all decide,
    by with_unfolding_all decide, by with_unfolding_all decide⟩
  intro s
  by_cases hs : s = ""
  · subst hs
    with_unfolding_all decide
  · rw [getCookie, getCookieSpec, if_pos hs]
    exact cookieLoop_eq_find (s.splitOn ";")

/-- C1: when all four fields carry the success tag with a numeric payload,
one run of the response handler writes `format(pH, 1)`, `format(T, 1)`,
`format(ec * 1000000, 0)` and `format(ORP, 0)` to the four display
elements (the ORP branch also creates the stray global `disp`); on the
response `pH: Ok 7.01, T: Ok 25.0, ec: Ok 0.0015, ORP: Ok 150.2` the four
display texts become "7.0", "25.0", "1500" and "150". -/
theorem handleResponse_all_ok_writes :
    (∀ (v1 v2 v3 v4 : ℚ) (s : PageState),
        handleResponse ⟨some (some v1), some (some v2), some (some v3), some (some v4)⟩ s =
          .ok { s with phReading := format v1 1, tempReading := format v2 1,
                       ecReading := format (v3 * 1000000) 0, orpReading := format v4 0,
                       disp := some v4 }) ∧
    (runState ⟨some (some (701 / 100)), some (some 25), some (some (15 / 10000)),
        some (some (1502 / 10))⟩ anyState).phReading = "7.0" ∧
    (runState ⟨some (some (701 / 100)), some (some 25), some (some (15 / 10000)),
        some (some (1502 / 10))⟩ anyState).tempReading = "25.0" ∧
    (runState ⟨some (some (701 / 100)), some (some 25), some (some (15 / 10000)),
        some (some (1502 / 10))⟩ anyState).ecReading = "1500" ∧
    (runState ⟨some (some (701 / 100)), some (some 25), some (some (15 / 10000)),
        some (some (1502 / 10))⟩ anyState).orpReading = "150" := by
  refine ⟨fun v1 v2 v3 v4 s => rfl, ?_, ?_, ?_, ?_⟩ <;> with_unfolding_all decide

/-- C3: when all four top-level fields are present, the handler returns
normally; a field lacking the success tag leaves its display element's
prior text in place, while each field carrying it is still formatted and
written; in particular a response whose pH record has no Ok key leaves
ph-reading's stale text unchanged. -/
theorem handleResponse_skips_fields_without_ok :
    (∀ (f1 f2 f3 f4 : Option ℚ) (s : PageState),
        handleResponse ⟨some f1, some f2, some f3, some f4⟩ s =
          .ok { phReading := match f1 with | some v => format v 1 | none => s.phReading
                tempReading := match f2 with | some v => format v 1 | none => s.tempReading
                ecReading := match f3 with | some v => format (v * 1000000) 0 | none => s.ecReading
                orpReading := match f4 with | some v => format v 0 | none => s.orpReading
                disp := match f4 with | some v => some v | none => s.disp
                documentCookie := s.documentCookie
                otherState := s.otherState }) ∧
    (runState ⟨some none, some (some 25), some (some (15 / 10000)),
        some (some (1502 / 10))⟩ anyState).phReading = "oldPh" ∧
    (runState ⟨some none, some (some 25), some (some (15 / 10000)),
        some (some (1502 / 10))⟩ anyState).tempReading = "25.0" := by
  refine ⟨fun f1 f2 f3 f4 s => ?_, ?_, ?_⟩
  · cases f1 <;> cases f2 <;> cases f3 <;> cases f4 <;> rfl
  · with_unfolding_all decide
  · with_unfolding_all decide

/-- C5: a parsed response missing at least one of the four top-level
fields makes the response handler throw (the member access on the missing
field raises a TypeError, surfacing as an unhandled rejection) instead of
returning normally; nothing catches it. -/
theorem handleResponse_missing_field_throws (r : Response) (s : PageState)
    (h : r.pH = none ∨ r.T = none ∨ r.ec = none ∨ r.ORP = none) :
    ∃ s1, handleResponse r s = .error s1 := by
  obtain ⟨p, t, e, o⟩ := r
  cases p <;> cases t <;> cases e <;> cases o <;>
    first
      | exact ⟨_, rfl⟩
      | rcases h with h | h | h | h <;> simp_all

/-- Concrete instantiation of the C5 theorem: a response lacking the pH
field throws from the initial sample state. -/
theorem handleResponse_missing_field_throws_witness :
    ∃ s1, handleResponse ⟨none, some (some 25), some (some 1), some (some 2)⟩ anyState =
      .error s1 :=
  handleResponse_missing_field_throws
    ⟨none, some (some 25), some (some 1), some (some 2)⟩ anyState (Or.inl rfl)

/-- C9: the handler inspects the fields in the fixed order pH, T, ec, ORP
with no atomicity: a write already performed persists when a later field's
absence makes the handler throw. With `pH: Ok v` and no `T` field,
ph-reading is updated to `format v 1` and the handler throws with the
remaining three displays (and `disp`) untouched; with only `ORP` absent,
the first three writes all persist. On the concrete response
`pH: Ok 7.01`, no `T`, ph-reading becomes "7.0" while temp-, ec- and
orp-reading keep their stale text. -/
theorem handleResponse_partial_writes_persist :
    (∀ (v : ℚ) (f3 f4 : Option (Option ℚ)) (s : PageState),
        handleResponse ⟨some (some v), none, f3, f4⟩ s =
          .error { s with phReading := format v 1 }) ∧
    (∀ (v1 v2 v3 : ℚ) (s : PageState),
        handleResponse ⟨some (some v1), some (some v2), some (some v3), none⟩ s =
          .error { s with phReading := format v1 1, tempReading := format v2 1,
                          ecReading := format (v3 * 1000000) 0 }) ∧
    (runState ⟨some (some (701 / 100)), none, none, none⟩ anyState).phReading = "7.0" ∧
    (runState ⟨some (some (701 / 100)), none, none, none⟩ anyState).tempReading = "oldT" ∧
    (runState ⟨some (some (701 / 100)), none, none, none⟩ anyState).ecReading = "oldEc" ∧
    (runState ⟨some (some (701 / 100)), none, none, none⟩ anyState).orpReading = "oldOrp" := by
  refine ⟨fun v f3 f4 s => rfl, fun v1 v2 v3 s => rfl, ?_, ?_, ?_, ?_⟩ <;>
    with_unfolding_all decide

/-- C6 fails on the code: line 43 assigns the undeclared global `disp`
(`format(disp = r.ORP.Ok, 0)`), so an invocation whose response carries
`ORP: Ok 150.2` mutates program state beyond the four display texts — the
global `disp` changes from undefined to the ORP payload. -/
theorem update_readings_mutates_disp_counterexample :
    (runState ⟨some (some (701 / 100)), some (some 25), some (some (15 / 10000)),
        some (some (1502 / 10))⟩ anyState).disp ≠ anyState.disp := by
  with_unfolding_all decide

/-- C6 as amended: an invocation of update_readings mutates nothing
beyond the text of the four display elements AND the global variable
`disp`; the cookie store and all other program state are untouched, and
`disp` changes only by receiving the ORP success payload. -/
theorem update_readings_frame_amended (r : Response) (s : PageState) :
    (runState r s).documentCookie = s.documentCookie ∧
    (runState r s).otherState = s.otherState ∧
    ((runState r s).disp = s.disp ∨
      ∃ v, r.ORP = some (some v) ∧ (runState r s).disp = some v) := by
  obtain ⟨p, t, e, o⟩ := r
  rcases p with _ | (_ | v1) <;> rcases t with _ | (_ | v2) <;>
    rcases e with _ | (_ | v3) <;> rcases o with _ | (_ | v4) <;>
    first
      | exact ⟨rfl, rfl, Or.inl rfl⟩
      | exact ⟨rfl, rfl, Or.inr ⟨_, rfl, rfl⟩⟩

/-- Concrete instantiation of the amended C6 theorem at the all-Ok sample
response and sample state. -/
theorem update_readings_frame_amended_witness :
    (runState ⟨some (some (701 / 100)), some (some 25), some (some (15 / 10000)),
        some (some (1502 / 10))⟩ anyState).documentCookie = anyState.documentCookie ∧
    (runState ⟨some (some (701 / 100)), some (some 25), some (some (15 / 10000)),
        some (some (1502 / 10))⟩ anyState).otherState = anyState.otherState ∧
    ((runState ⟨some (some (701 / 100)), some (some 25), some (some (15 / 10000)),
        some (some (1502 / 10))⟩ anyState).disp = anyState.disp ∨
      ∃ v, (Response.mk (some (some (701 / 100))) (some (some 25)) (some (some (15 / 10000)))
          (some (some (1502 / 10)))).ORP = some (some v) ∧
        (runState ⟨some (some (701 / 100)), some (some 25), some (some (15 / 10000)),
          some (some (1502 / 10))⟩ anyState).disp = some v) :=
  update_readings_frame_amended
    ⟨some (some (701 / 100)), some (some 25), some (some (15 / 10000)),
      some (some (1502 / 10))⟩ anyState

/-- C8: every invocation of update_readings issues exactly one GET
request — the single request object the invocation builds — to the fixed
path /api/readings, with credentials included and with headers
X-CSRFToken (the value getCookie returns fresh from the current cookie
store on this very invocation), Content-Type
"application/json; charset=UTF-8", Accept "application/json" and
X-Requested-With "XMLHttpRequest"; when no csrftoken cookie exists the
header carries the null value and the request is still issued. -/
theorem update_readings_request_shape :
    (∀ s : PageState,
        (update_readings s).1 =
          { method := "GET", url := "/api/readings",
            xCSRFToken := getCookie s.documentCookie,
            contentType := "application/json; charset=UTF-8",
            accept := "application/json", xRequestedWith := "XMLHttpRequest",
            credentials := "include" } ∧
        (update_readings s).2 = handleResponse) ∧
    (update_readings anyState).1.xCSRFToken = none ∧
    (update_readings { anyState with documentCookie := "csrftoken=abc123" }).1.xCSRFToken =
      some "abc123" := by
  refine ⟨fun s => ⟨rfl, rfl⟩, ?_, ?_⟩ <;> with_unfolding_all decide

end WaterMon
